import Mathlib

/-!
# Shallow embedding of `crates/common/validator/src/validator.rs` (ream validator service)

This file embeds the `ValidatorService` of the ream validator client:
its slot/epoch clock loop (`start`), registry resolution
(`fetch_validator_indicies`), duty caching (`fetch_duties` and the three
per-kind fetchers) and the four duty executors (`propose_block`,
`make_attestation`, `submit_aggregate_and_proof`, `submit_sync_committee`).

External collaborators (the beacon API client, the BLS signer, tokio's
timer) are represented by explicit response parameters ("oracles"); every
network call and log line the service emits is recorded in a trace of
`Event`s, so that statements about which calls are issued, with which
arguments and in which order, are statements about these traces.
Machine integers (`u64`) are modelled as `Nat`: the service never
exercises wrap-around arithmetic on them.
-/

namespace Ream

/-- Network parameter `slots_per_epoch` (mainnet value), read by
`compute_epoch_at_slot` from the process-wide network spec. -/
def SLOTS_PER_EPOCH : Nat := 32

/-- Modelled from the spec: `compute_epoch_at_slot` lives in
`ream_consensus::misc`, which is not under `src/`; the spec states
"epoch = floor(slot / slots-per-epoch)". -/
def compute_epoch_at_slot (slot : Nat) : Nat := slot / SLOTS_PER_EPOCH

/-! ## The clock loop (`ValidatorService::start`, lines 95-132)

`start` derives the current slot from elapsed wall time, anchors a periodic
interval, and on each tick increments the slot, recomputes the epoch and,
when the epoch changed, runs `on_epoch` before `on_slot`.  We model one
iteration of the loop body by the list of service procedures it runs. -/

/-- The units of work a tick of the clock loop can perform:
`registry_refresh` is a call to `fetch_validator_indicies`,
`duty_store_refresh` a call to `fetch_duties`, `slot_work` a call to
`on_slot`. -/
inductive TickWork
  | registry_refresh
  | duty_store_refresh
  | slot_work
deriving DecidableEq, Repr

/-- The work performed by `ValidatorService::on_epoch` (lines 383-386): it
calls `fetch_validator_indicies` and logs the epoch; nothing else.  In
particular it does not call `fetch_duties`. -/
def on_epoch_work : List TickWork := [TickWork.registry_refresh]

/-- One iteration of the loop body of `ValidatorService::start`
(lines 118-131): `slot += 1`; recompute the epoch; if it differs from the
stored epoch, update it and run `on_epoch`; then run `on_slot`.  Returns
the new `(slot, epoch)` pair and the sequence of work performed. -/
def tick_work (slot epoch : Nat) : Nat × Nat × List TickWork :=
  let slot' := slot + 1
  let current_epoch := compute_epoch_at_slot slot'
  if current_epoch ≠ epoch then
    (slot', current_epoch, on_epoch_work ++ [TickWork.slot_work])
  else
    (slot', epoch, [TickWork.slot_work])

/-! ## Missed-tick behaviour (line 116)

The service configures its tokio interval with
`interval.set_missed_tick_behavior(MissedTickBehavior::Burst)`. -/

/-- tokio's `MissedTickBehavior` variants. -/
inductive MissedTickBehavior
  | Burst
  | Delay
  | Skip
deriving DecidableEq, Repr

/-- The missed-tick behaviour the service sets on its interval
(`validator.rs` line 116): `MissedTickBehavior::Burst`. -/
def service_missed_tick_behavior : MissedTickBehavior := MissedTickBehavior.Burst

/-- Modelled from the tokio documentation (external dependency, not under
`src/`): the number of `tick()` calls that resolve immediately after a
stall during which `missed` scheduled tick instants passed.  With `Burst`
every missed tick fires as fast as possible until the interval has caught
up; with `Delay` and `Skip` at most one pending tick fires and the rest
are absorbed into the adjusted schedule. -/
def catch_up_ticks : MissedTickBehavior → Nat → Nat
  | MissedTickBehavior.Burst, missed => missed
  | MissedTickBehavior.Delay, missed => min missed 1
  | MissedTickBehavior.Skip, missed => min missed 1

/-! ## Interval anchoring (`start`, lines 102-115)

`start` computes `elapsed = now - genesis_time`, `slot = elapsed /
seconds_per_slot`, and anchors the interval at
`Instant::now() - (elapsed - slot * seconds_per_slot)`, i.e. at the most
recent slot boundary, which lies in the past whenever the service starts
mid-slot. -/

/-- `elapsed.as_secs()` at startup: seconds since genesis
(`start`, lines 104-106; starting before genesis aborts, so `genesis_time ≤ now`
wherever this is used). -/
def start_elapsed (genesis_time now : Nat) : Nat := now - genesis_time

/-- The slot derived at startup: `elapsed / seconds_per_slot` (line 108). -/
def start_slot (seconds_per_slot genesis_time now : Nat) : Nat :=
  start_elapsed genesis_time now / seconds_per_slot

/-- The instant the interval is anchored at (lines 112-113):
`now - (elapsed - slot * seconds_per_slot)`. -/
def interval_start (seconds_per_slot genesis_time now : Nat) : Nat :=
  now - (start_elapsed genesis_time now
          - start_slot seconds_per_slot genesis_time now * seconds_per_slot)

/-- Modelled from the tokio documentation (external dependency):
`interval_at(start, period)` schedules its `n`-th tick (counting from 0)
at `start + n * period`. -/
def nth_tick_scheduled (start period n : Nat) : Nat := start + n * period

/-- Modelled from the tokio documentation (external dependency): a tick
whose scheduled instant is not in the future resolves immediately, so the
first tick of `interval_at(start, period)` fires at `max start now` when
first polled at `now`. -/
def first_tick_fires_at (start now : Nat) : Nat := max start now

/-! ## Service state

Public keys, private keys, signatures, roots and duty records are opaque
to this service; we model each as `Nat`.  The two `HashMap`s are modelled
as association lists in insertion order (the service only ever inserts
vacant entries and looks keys up, so the map operations used are
order-independent). -/

/-- Opaque BLS private key (held by a `Keystore`). -/
abbrev PrivateKey := Nat

/-- Opaque BLS public key. -/
abbrev PublicKey := Nat

/-- Opaque BLS signature. -/
abbrev Sig := Nat

/-- `ream_keystore::keystore::Keystore`: the fields the service reads. -/
structure Keystore where
  public_key : PublicKey
  private_key : PrivateKey
deriving DecidableEq, Repr

/-- `ProposerDuty` (from `ream_beacon_api_types::duties`): the fields the
service reads. -/
structure ProposerDuty where
  validator_index : Nat
  slot : Nat
deriving DecidableEq, Repr

/-- `AttesterDuty`: opaque record, replaced wholesale by the service. -/
abbrev AttesterDuty := Nat

/-- `SyncCommitteeDuty`: opaque record, replaced wholesale by the service. -/
abbrev SyncCommitteeDuty := Nat

/-- `SyncCommitteeRequestItem` (from `ream_beacon_api_types::request`). -/
structure SyncCommitteeRequestItem where
  slot : Nat
  beacon_block_root : Nat
  validator_index : Nat
  signature : Sig
deriving DecidableEq, Repr

/-- `SingleAttestation` (from `ream_consensus::single_attestation`). -/
structure SingleAttestation where
  attester_index : Nat
  committee_index : Nat
  signature : Sig
  data : Nat
deriving DecidableEq, Repr

/-- `AggregateAndProof` (from `crate::aggregate_and_proof`). -/
structure AggregateAndProof where
  aggregator_index : Nat
  aggregate : Nat
  selection_proof : Sig
deriving DecidableEq, Repr

/-- `SignedAggregateAndProof` (from `crate::aggregate_and_proof`). -/
structure SignedAggregateAndProof where
  signature : Sig
  message : AggregateAndProof
deriving DecidableEq, Repr

/-- `BroadcastValidation` (from `ream_beacon_api_types::block`); the
service only ever uses `Gossip`. -/
inductive BroadcastValidation
  | Gossip
  | Consensus
  | ConsensusAndEquivocation
deriving DecidableEq, Repr

/-- `ProduceBlockData` (from `ream_beacon_api_types::block`): the closed
two-variant response of `produce_block`.  For `Full` we keep the inner
`block` field that `propose_block` extracts; payload contents are opaque. -/
inductive ProduceBlockData
  | Full (block : Nat)
  | Blinded (block : Nat)
deriving DecidableEq, Repr

/-- The mutable state of `ValidatorService` (lines 55-66), restricted to
the fields its methods read or write. -/
structure ValidatorService where
  validators : List Keystore
  active_validator_count : Nat
  public_key_to_index : List (PublicKey × Nat)
  validator_index_to_keystore : List (Nat × Keystore)
  proposer_duties : List ProposerDuty
  attester_duties : List AttesterDuty
  sync_committee_duties : List SyncCommitteeDuty
deriving DecidableEq, Repr

/-- `HashMap` key lookup (`get` / entry presence) on the association-list
model. -/
def lookupKey {α : Type} (m : List (Nat × α)) (k : Nat) : Option α :=
  (m.find? (fun entry => entry.1 == k)).map (fun entry => entry.2)

/-! ## Event traces

Every beacon-API call and every log line the service can emit. -/

/-- Observable actions of the service: one constructor per beacon-API
call, plus the log lines the fetchers emit. -/
inductive Event
  | get_state_validator_list (pubkeys : List PublicKey)
  | get_proposer_duties (epoch : Nat)
  | get_attester_duties (epoch : Nat) (indices : List Nat)
  | get_sync_committee_duties (epoch : Nat) (indices : List Nat)
  | produce_block (slot : Nat) (randao_reveal : Sig)
  | publish_block (validation : BroadcastValidation) (signed_block : Nat)
  | publish_blinded_block (validation : BroadcastValidation) (signed_block : Nat)
  | get_block_root (slot : Nat)
  | publish_sync_committee_signature (payload : List SyncCommitteeRequestItem)
  | get_attestation_data (slot : Nat) (committee_index : Nat)
  | submit_attestation (attestations : List SingleAttestation)
  | get_aggregated_attestation (root : Nat) (slot : Nat) (committee_index : Nat)
  | publish_aggregate_and_proofs (aggregates : List SignedAggregateAndProof)
  | log_error_proposer_duties (epoch : Nat)
  | log_error_attester_duties (epoch : Nat)
  | log_error_sync_committee_duties (epoch : Nat)
  | warn_no_active_validators
deriving DecidableEq, Repr

/-! ## Registry resolution (`fetch_validator_indicies`, lines 138-181) -/

/-- One element of the `get_state_validator_list` response
(`validator_data` in the source): chain index plus the validator's public
key. -/
structure ValidatorData where
  index : Nat
  public_key : PublicKey
deriving DecidableEq, Repr

/-- The per-element body of the `for_each` in `fetch_validator_indicies`
(lines 157-178): if the response key has no entry in
`public_key_to_index` (a `Vacant` entry), insert `key ↦ index`, insert
`index ↦ keystore` for the configured keystore with that key (if any),
and increment `active_validator_count`; otherwise leave the state alone. -/
def insertValidatorData (s : ValidatorService) (validator_data : ValidatorData) :
    ValidatorService :=
  if (lookupKey s.public_key_to_index validator_data.public_key).isSome then s
  else
    let s1 := { s with
      public_key_to_index :=
        s.public_key_to_index ++ [(validator_data.public_key, validator_data.index)] }
    let s2 :=
      match s1.validators.find? (fun keystore =>
          keystore.public_key == validator_data.public_key) with
      | some keystore =>
          { s1 with validator_index_to_keystore :=
              s1.validator_index_to_keystore ++ [(validator_data.index, keystore)] }
      | none => s1
    { s2 with active_validator_count := s2.active_validator_count + 1 }

/-- `ValidatorService::fetch_validator_indicies` (lines 138-181).  If
`active_validator_count < validators.len()` it issues one
`get_state_validator_list` query carrying the public keys of **all**
configured validators; on a successful response each returned mapping is
folded in with `insertValidatorData`; on a failed response the state is
unchanged.  Otherwise nothing happens.  The response is an oracle
parameter. -/
def fetch_validator_indicies (s : ValidatorService)
    (resp : Except Unit (List ValidatorData)) :
    ValidatorService × List Event :=
  if s.active_validator_count < s.validators.length then
    let events := [Event.get_state_validator_list
      (s.validators.map (fun keystore => keystore.public_key))]
    match resp with
    | Except.ok validator_infos => (validator_infos.foldl insertValidatorData s, events)
    | Except.error _ => (s, events)
  else (s, [])

/-! ## Duty fetching (`fetch_duties` and helpers, lines 183-241) -/

/-- `ValidatorService::fetch_proposer_duties` (lines 198-211): issues the
query; on success replaces `proposer_duties` with the response filtered to
owned indices; on failure logs the epoch and leaves the cache alone. -/
def fetch_proposer_duties (s : ValidatorService) (epoch : Nat)
    (validator_indices : List Nat)
    (resp : Except Unit (List ProposerDuty)) :
    ValidatorService × List Event :=
  match resp with
  | Except.ok duties_response =>
      let filtered := duties_response.filter
        (fun duty => validator_indices.contains duty.validator_index)
      ({ s with proposer_duties := filtered },
       [Event.get_proposer_duties epoch])
  | Except.error _ =>
      (s, [Event.get_proposer_duties epoch, Event.log_error_proposer_duties epoch])

/-- `ValidatorService::fetch_attester_duties` (lines 213-226): issues the
query; on success replaces `attester_duties` with the response data; on
failure logs the epoch and leaves the cache alone. -/
def fetch_attester_duties (s : ValidatorService) (epoch : Nat)
    (validator_indices : List Nat)
    (resp : Except Unit (List AttesterDuty)) :
    ValidatorService × List Event :=
  match resp with
  | Except.ok duties_response =>
      ({ s with attester_duties := duties_response },
       [Event.get_attester_duties epoch validator_indices])
  | Except.error _ =>
      (s, [Event.get_attester_duties epoch validator_indices,
           Event.log_error_attester_duties epoch])

/-- `ValidatorService::fetch_sync_committee_duties` (lines 228-241):
issues the query; on success replaces `sync_committee_duties` with the
response data; on failure logs the epoch and leaves the cache alone. -/
def fetch_sync_committee_duties (s : ValidatorService) (epoch : Nat)
    (validator_indices : List Nat)
    (resp : Except Unit (List SyncCommitteeDuty)) :
    ValidatorService × List Event :=
  match resp with
  | Except.ok duties_response =>
      ({ s with sync_committee_duties := duties_response },
       [Event.get_sync_committee_duties epoch validator_indices])
  | Except.error _ =>
      (s, [Event.get_sync_committee_duties epoch validator_indices,
           Event.log_error_sync_committee_duties epoch])

/-- `ValidatorService::fetch_duties` (lines 183-196): collects the
resolved validator indices; if there are none, warns and stops; otherwise
runs the proposer fetch for `epoch`, the attester fetch for `epoch + 1`
and the sync-committee fetch for `epoch`, in that order.  The three
responses are oracle parameters. -/
def fetch_duties (s : ValidatorService) (epoch : Nat)
    (respP : Except Unit (List ProposerDuty))
    (respA : Except Unit (List AttesterDuty))
    (respS : Except Unit (List SyncCommitteeDuty)) :
    ValidatorService × List Event :=
  let validator_indices : List Nat :=
    s.public_key_to_index.map (fun entry => entry.2)
  if validator_indices.isEmpty then (s, [Event.warn_no_active_validators])
  else
    let r1 := fetch_proposer_duties s epoch validator_indices respP
    let r2 := fetch_attester_duties r1.1 (epoch + 1) validator_indices respA
    let r3 := fetch_sync_committee_duties r2.1 epoch validator_indices respS
    (r3.1, r1.2 ++ r2.2 ++ r3.2)

/-! ## Errors

The service reports failures through `anyhow`; we model the distinct
failure messages an executor can return. -/

/-- The failure cases of the duty executors: the named "Keystore not found
for validator: i" lookup error, the named "Signing failed for validator i"
error of the sync-committee batch, a failure inside a signing helper, and
a failed network call. -/
inductive VError
  | keystore_not_found (validator_index : Nat)
  | signing_failed (validator_index : Nat)
  | signing_error
  | network_error
deriving DecidableEq, Repr

/-! ## Block proposal (`propose_block`, lines 243-275)

The signing helpers (`sign_randao_reveal`, `sign_beacon_block`,
`sign_blinded_beacon_block`, from `crate::randao` / `crate::block`, not
under `src/`) and the network responses are oracle parameters gathered in
`ProposeOracles`; each is fallible, as the source's are. -/

/-- Oracles for `propose_block`: the three signing helpers and the three
beacon-API responses it consumes. -/
structure ProposeOracles where
  sign_randao_reveal : Nat → PrivateKey → Except Unit Sig
  produce_block : Except Unit ProduceBlockData
  sign_beacon_block : Nat → Nat → PrivateKey → Except Unit Nat
  sign_blinded_beacon_block : Nat → Nat → PrivateKey → Except Unit Nat
  publish_block : Except Unit Unit
  publish_blinded_block : Except Unit Unit

/-- `ValidatorService::propose_block` (lines 243-275): resolve the
keystore (named error if absent, before anything else); sign the RANDAO
reveal; request a block supplying the reveal; on a `Full` response sign
the inner block and publish through `publish_block` at `Gossip`; on a
`Blinded` response sign it and publish through `publish_blinded_block` at
`Gossip`; every `?` aborts the whole run. -/
def propose_block (s : ValidatorService) (slot validator_index : Nat)
    (o : ProposeOracles) : Except VError Unit × List Event :=
  match lookupKey s.validator_index_to_keystore validator_index with
  | none => (Except.error (VError.keystore_not_found validator_index), [])
  | some keystore =>
    match o.sign_randao_reveal slot keystore.private_key with
    | Except.error _ => (Except.error VError.signing_error, [])
    | Except.ok randao_reveal =>
      let ev0 := [Event.produce_block slot randao_reveal]
      match o.produce_block with
      | Except.error _ => (Except.error VError.network_error, ev0)
      | Except.ok (ProduceBlockData.Full full_block) =>
        match o.sign_beacon_block slot full_block keystore.private_key with
        | Except.error _ => (Except.error VError.signing_error, ev0)
        | Except.ok signed_beacon_block =>
          let ev1 := ev0 ++
            [Event.publish_block BroadcastValidation.Gossip signed_beacon_block]
          match o.publish_block with
          | Except.ok _ => (Except.ok (), ev1)
          | Except.error _ => (Except.error VError.network_error, ev1)
      | Except.ok (ProduceBlockData.Blinded blinded_block) =>
        match o.sign_blinded_beacon_block slot blinded_block keystore.private_key with
        | Except.error _ => (Except.error VError.signing_error, ev0)
        | Except.ok signed_blinded_block =>
          let ev1 := ev0 ++
            [Event.publish_blinded_block BroadcastValidation.Gossip signed_blinded_block]
          match o.publish_blinded_block with
          | Except.ok _ => (Except.ok (), ev1)
          | Except.error _ => (Except.error VError.network_error, ev1)

/-! ## Sync-committee signatures (`submit_sync_committee`, lines 277-319) -/

/-- Modelled from the spec: `DOMAIN_SYNC_COMMITTEE`
(`ream_consensus::constants`, not under `src/`); opaque domain-type
constant. -/
def DOMAIN_SYNC_COMMITTEE : Nat := 7

/-- Modelled from the spec: the network's `electra_fork_version`
(process-wide network parameter, not under `src/`); opaque constant. -/
def electra_fork_version : Nat := 0

/-- Modelled from the spec: `compute_domain`
(`ream_consensus::misc`, not under `src/`): an opaque injective mix of
domain type and fork version, modelled by the `Nat` pairing function. -/
def compute_domain (domain_type fork_version : Nat) : Nat :=
  Nat.pair domain_type fork_version

/-- Modelled from the spec: `compute_signing_root`
(`ream_consensus::misc`, not under `src/`): an opaque injective binding of
an object's root to a domain, modelled by the `Nat` pairing function. -/
def compute_signing_root (root domain : Nat) : Nat :=
  Nat.pair root domain

/-- Oracles for `submit_sync_committee`: the two beacon-API responses and
the signer's `sign` operation (`keystore.private_key.sign`, an external
BLS primitive, fallible per keystore and message). -/
structure SyncOracles where
  get_block_root : Except Unit Nat
  sign : PrivateKey → Nat → Except Unit Sig
  publish_sync_committee_signature : Except Unit Unit

/-- The `filter_map` + `collect::<Result<Vec<_>, _>>` of
`submit_sync_committee` (lines 295-313): walk the input indices in order;
an index with no keystore contributes nothing; for an index with a
keystore, a successful sign contributes one `SyncCommitteeRequestItem`
and a failed sign short-circuits the whole collection with the named
error, exactly as `collect` on a `Result` iterator stops at the first
`Err`. -/
def build_sync_payload (s : ValidatorService) (slot : Nat)
    (validator_indices : List Nat) (o : SyncOracles)
    (signing_root beacon_block_root : Nat) :
    Except VError (List SyncCommitteeRequestItem) :=
  match validator_indices with
  | [] => Except.ok []
  | validator_index :: rest =>
    match lookupKey s.validator_index_to_keystore validator_index with
    | none => build_sync_payload s slot rest o signing_root beacon_block_root
    | some keystore =>
      match o.sign keystore.private_key signing_root with
      | Except.ok signature =>
          (build_sync_payload s slot rest o signing_root beacon_block_root).map
            (fun tail =>
              { slot := slot, beacon_block_root := beacon_block_root,
                validator_index := validator_index,
                signature := signature : SyncCommitteeRequestItem } :: tail)
      | Except.error _ => Except.error (VError.signing_failed validator_index)

/-- `ValidatorService::submit_sync_committee` (lines 277-319): compute the
sync-committee domain; fetch the block root for the slot (failure aborts);
compute the signing root; build the payload over the input indices
(`build_sync_payload`; a sign failure aborts before the publish call);
publish the whole payload in one `publish_sync_committee_signature`
call. -/
def submit_sync_committee (s : ValidatorService) (slot : Nat)
    (validator_indices : List Nat) (o : SyncOracles) :
    Except VError Unit × List Event :=
  let domain := compute_domain DOMAIN_SYNC_COMMITTEE electra_fork_version
  let ev0 := [Event.get_block_root slot]
  match o.get_block_root with
  | Except.error _ => (Except.error VError.network_error, ev0)
  | Except.ok beacon_block_root =>
    let signing_root := compute_signing_root beacon_block_root domain
    match build_sync_payload s slot validator_indices o signing_root beacon_block_root with
    | Except.error e => (Except.error e, ev0)
    | Except.ok payload =>
      let ev1 := ev0 ++ [Event.publish_sync_committee_signature payload]
      match o.publish_sync_committee_signature with
      | Except.ok _ => (Except.ok (), ev1)
      | Except.error _ => (Except.error VError.network_error, ev1)

/-! ## Attestation (`make_attestation`, lines 321-345) -/

/-- Oracles for `make_attestation`: the attestation-data response, the
`sign_attestation_data` helper (`crate::attestation`, not under `src/`)
and the submit response. -/
structure AttestationOracles where
  get_attestation_data : Except Unit Nat
  sign_attestation_data : Nat → PrivateKey → Except Unit Sig
  submit_attestation : Except Unit Unit

/-- `ValidatorService::make_attestation` (lines 321-345): resolve the
keystore (named error if absent, before anything else); fetch attestation
data for `(slot, committee_index)`; sign it; submit a single-element
attestation list; every `?` aborts the whole run. -/
def make_attestation (s : ValidatorService)
    (slot validator_index committee_index : Nat)
    (o : AttestationOracles) : Except VError Unit × List Event :=
  match lookupKey s.validator_index_to_keystore validator_index with
  | none => (Except.error (VError.keystore_not_found validator_index), [])
  | some keystore =>
    let ev0 := [Event.get_attestation_data slot committee_index]
    match o.get_attestation_data with
    | Except.error _ => (Except.error VError.network_error, ev0)
    | Except.ok attestation_data =>
      match o.sign_attestation_data attestation_data keystore.private_key with
      | Except.error _ => (Except.error VError.signing_error, ev0)
      | Except.ok signature =>
        let attestation : SingleAttestation :=
          { attester_index := validator_index, committee_index := committee_index,
            signature := signature, data := attestation_data }
        let attestations := [attestation]
        let ev1 := ev0 ++ [Event.submit_attestation attestations]
        match o.submit_attestation with
        | Except.ok _ => (Except.ok (), ev1)
        | Except.error _ => (Except.error VError.network_error, ev1)

/-! ## Aggregation (`submit_aggregate_and_proof`, lines 347-381) -/

/-- Modelled from the spec: `tree_hash_root` (the `tree_hash` crate, not
under `src/`): the opaque content hash of attestation data; injective on
our opaque `Nat` model, so modelled as the identity. -/
def tree_hash_root (attestation_data : Nat) : Nat := attestation_data

/-- Oracles for `submit_aggregate_and_proof`: the aggregated-attestation
response, the `get_selection_proof` and `sign_aggregate_and_proof`
helpers (`crate::attestation` / `crate::aggregate_and_proof`, not under
`src/`) and the publish response. -/
structure AggregateOracles where
  get_aggregated_attestation : Except Unit Nat
  get_selection_proof : Nat → PrivateKey → Except Unit Sig
  sign_aggregate_and_proof : AggregateAndProof → PrivateKey → Except Unit Sig
  publish_aggregate_and_proofs : Except Unit Unit

/-- `ValidatorService::submit_aggregate_and_proof` (lines 347-381):
resolve the aggregator's keystore (named error if absent, before anything
else); fetch the aggregated attestation for the data's content hash;
compute the selection proof; sign the assembled `AggregateAndProof`;
publish a single-element list; every `?` aborts the whole run. -/
def submit_aggregate_and_proof (s : ValidatorService)
    (attestation_data slot committee_index aggregator_index : Nat)
    (o : AggregateOracles) : Except VError Unit × List Event :=
  match lookupKey s.validator_index_to_keystore aggregator_index with
  | none => (Except.error (VError.keystore_not_found aggregator_index), [])
  | some keystore =>
    let ev0 := [Event.get_aggregated_attestation
      (tree_hash_root attestation_data) slot committee_index]
    match o.get_aggregated_attestation with
    | Except.error _ => (Except.error VError.network_error, ev0)
    | Except.ok aggregate =>
      match o.get_selection_proof slot keystore.private_key with
      | Except.error _ => (Except.error VError.signing_error, ev0)
      | Except.ok selection_proof =>
        let aggregate_and_proof : AggregateAndProof :=
          { aggregator_index := aggregator_index, aggregate := aggregate,
            selection_proof := selection_proof }
        match o.sign_aggregate_and_proof aggregate_and_proof keystore.private_key with
        | Except.error _ => (Except.error VError.signing_error, ev0)
        | Except.ok signature =>
          let signed : SignedAggregateAndProof :=
            { signature := signature, message := aggregate_and_proof }
          let aggregates := [signed]
          let ev1 := ev0 ++ [Event.publish_aggregate_and_proofs aggregates]
          match o.publish_aggregate_and_proofs with
          | Except.ok _ => (Except.ok (), ev1)
          | Except.error _ => (Except.error VError.network_error, ev1)

/-- The publish calls of the block-proposal pipeline inside a trace:
`publish_block` or `publish_blinded_block` events. -/
def is_publish_event : Event → Bool
  | Event.publish_block _ _ => true
  | Event.publish_blinded_block _ _ => true
  | _ => false

/-- The sub-trace of block-publish calls. -/
def publish_events (trace : List Event) : List Event :=
  trace.filter is_publish_event

/-! ## Concrete fixtures used by counterexamples and witnesses -/

/-- A service with two configured keystores of which the first is already
resolved (to chain index 10). -/
def partially_resolved_state : ValidatorService :=
  { validators := [⟨1, 101⟩, ⟨2, 102⟩]
    active_validator_count := 1
    public_key_to_index := [(1, 10)]
    validator_index_to_keystore := [(10, ⟨1, 101⟩)]
    proposer_duties := []
    attester_duties := []
    sync_committee_duties := [] }

/-- A service whose single configured keystore is already resolved. -/
def fully_resolved_state : ValidatorService :=
  { validators := [⟨1, 101⟩]
    active_validator_count := 1
    public_key_to_index := [(1, 10)]
    validator_index_to_keystore := [(10, ⟨1, 101⟩)]
    proposer_duties := []
    attester_duties := []
    sync_committee_duties := [] }

/-- A service with one configured keystore and an empty registry: no
validator index has a resolved signer. -/
def empty_registry_state : ValidatorService :=
  { validators := [⟨1, 101⟩]
    active_validator_count := 0
    public_key_to_index := []
    validator_index_to_keystore := []
    proposer_duties := []
    attester_duties := []
    sync_committee_duties := [] }

/-- A service with signers resolved for validator indices 1 and 3 (and
none for 2). -/
def two_signer_state : ValidatorService :=
  { validators := [⟨1, 101⟩, ⟨3, 103⟩]
    active_validator_count := 2
    public_key_to_index := [(1, 1), (3, 3)]
    validator_index_to_keystore := [(1, ⟨1, 101⟩), (3, ⟨3, 103⟩)]
    proposer_duties := []
    attester_duties := []
    sync_committee_duties := [] }

/-- Sync-committee oracles where every call and every sign succeeds. -/
def sync_oracles_ok : SyncOracles :=
  { get_block_root := Except.ok 5
    sign := fun _ _ => Except.ok 99
    publish_sync_committee_signature := Except.ok () }

/-- Sync-committee oracles where the signer of keystore 103 fails and
everything else succeeds. -/
def sync_oracles_sign_fail : SyncOracles :=
  { get_block_root := Except.ok 5
    sign := fun private_key _ =>
      if private_key == 103 then Except.error () else Except.ok 99
    publish_sync_committee_signature := Except.ok () }

/-- The payload `submit_sync_committee` builds over indices `[1, 2, 3]`
of `two_signer_state` at slot 2 with block root 5 under
`sync_oracles_ok`. -/
def sync_payload_13 : List SyncCommitteeRequestItem :=
  [{ slot := 2, beacon_block_root := 5, validator_index := 1, signature := 99 },
   { slot := 2, beacon_block_root := 5, validator_index := 3, signature := 99 }]

/-- Propose oracles where every step succeeds and `produce_block` returns
a `Full` block. -/
def propose_oracles_full_ok : ProposeOracles :=
  { sign_randao_reveal := fun _ _ => Except.ok 41
    produce_block := Except.ok (ProduceBlockData.Full 42)
    sign_beacon_block := fun _ _ _ => Except.ok 43
    sign_blinded_beacon_block := fun _ _ _ => Except.ok 44
    publish_block := Except.ok ()
    publish_blinded_block := Except.ok () }

/-- Attestation oracles where every step succeeds. -/
def attestation_oracles_ok : AttestationOracles :=
  { get_attestation_data := Except.ok 51
    sign_attestation_data := fun _ _ => Except.ok 52
    submit_attestation := Except.ok () }

/-- Aggregate oracles where every step succeeds. -/
def aggregate_oracles_ok : AggregateOracles :=
  { get_aggregated_attestation := Except.ok 61
    get_selection_proof := fun _ _ => Except.ok 62
    sign_aggregate_and_proof := fun _ _ => Except.ok 63
    publish_aggregate_and_proofs := Except.ok () }

/-! # Theorems -/

/-! ## Helper lemmas -/

/-- A key present in an association list is still bound to the same value
after entries are appended on the right (the `find?` scan reaches the old
entry first). -/
theorem lookupKey_append_some {α : Type} (m ext : List (Nat × α)) (k : Nat) (v : α)
    (h : lookupKey m k = some v) : lookupKey (m ++ ext) k = some v := by
  induction m with
  | nil => simp [lookupKey] at h
  | cons e rest ih =>
    unfold lookupKey at h ⊢
    by_cases hk : e.1 == k
    · simpa [List.find?_cons, hk] using h
    · simp only [List.cons_append, List.find?_cons, hk] at h ⊢
      exact ih h

/-- `insertValidatorData` never overwrites an existing
`public_key_to_index` entry. -/
theorem lookup_insertValidatorData (s : ValidatorService) (vd : ValidatorData)
    (pk : PublicKey) (i : Nat)
    (h : lookupKey s.public_key_to_index pk = some i) :
    lookupKey (insertValidatorData s vd).public_key_to_index pk = some i := by
  unfold insertValidatorData
  by_cases hv : (lookupKey s.public_key_to_index vd.public_key).isSome
  · simpa [hv] using h
  · simp only [hv, if_false]
    cases hfind : s.validators.find? (fun keystore =>
        keystore.public_key == vd.public_key) <;>
      simpa [hfind] using lookupKey_append_some _ _ _ _ h

/-- Folding `insertValidatorData` over any response list never overwrites
an existing `public_key_to_index` entry. -/
theorem lookup_foldl_insertValidatorData (l : List ValidatorData)
    (s : ValidatorService) (pk : PublicKey) (i : Nat)
    (h : lookupKey s.public_key_to_index pk = some i) :
    lookupKey (l.foldl insertValidatorData s).public_key_to_index pk = some i := by
  induction l generalizing s with
  | nil => simpa using h
  | cons vd rest ih =>
    exact ih _ (lookup_insertValidatorData s vd pk i h)

/-! ## C1 -/

/-- C1: the claim states that on every epoch-changing tick the registry
refresh (`fetch_validator_indicies`) **and** the duty-store refresh
(`fetch_duties`) run before the per-slot work.  The code's `on_epoch`
only runs the registry refresh: this theorem characterises the work of
every tick and shows the duty-store refresh is never part of it, on any
tick, epoch-changing or not. -/
theorem C1_tick_never_runs_duty_store_refresh (slot epoch : Nat) :
    (tick_work slot epoch).2.2 =
      (if compute_epoch_at_slot (slot + 1) ≠ epoch then
        [TickWork.registry_refresh, TickWork.slot_work]
      else [TickWork.slot_work]) ∧
    TickWork.duty_store_refresh ∉ (tick_work slot epoch).2.2 := by
  unfold tick_work on_epoch_work
  by_cases h : compute_epoch_at_slot (slot + 1) ≠ epoch <;> simp [h]

/-! ## C2 -/

/-- C2 counterexample: the service configures `MissedTickBehavior::Burst`
(line 116), under which a stall crossing 3 slot boundaries fires 3
catch-up ticks, not exactly one. -/
theorem C2_counterexample_burst_three_ticks :
    catch_up_ticks service_missed_tick_behavior 3 = 3 ∧ (3 : Nat) ≠ 1 := by
  exact ⟨rfl, by decide⟩

/-- C2 (amended): after a stall of the clock loop, one catch-up tick
fires per missed slot boundary — the configured `Burst` behaviour fires
the whole backlog, it does not coalesce it into a single tick. -/
theorem C2_burst_one_tick_per_missed_boundary (missed : Nat) :
    catch_up_ticks service_missed_tick_behavior missed = missed := rfl

/-! ## C3 -/

/-- C3 counterexample: with `genesis_time = 1000`,
`seconds_per_slot = 12` and `now = 1063`, the derived slot is 5 but the
interval is anchored at 1060, a past instant, so its first tick resolves
immediately at 1063 — 0 seconds after start, not 9. -/
theorem C3_counterexample_first_tick_immediate :
    start_slot 12 1000 1063 = 5 ∧
    interval_start 12 1000 1063 = 1060 ∧
    first_tick_fires_at (interval_start 12 1000 1063) 1063 = 1063 ∧
    (1063 : Nat) ≠ 1063 + 9 := by
  refine ⟨rfl, rfl, rfl, by decide⟩

/-- C3 (amended): with `genesis_time = T`, `seconds_per_slot = 12` and
`now = T + 63`, the derived slot is 5 and the interval is anchored at the
most recent slot boundary `T + 60`; the first tick therefore fires
immediately at start (`T + 63`), the second tick fires 9 seconds after
start, and every scheduled tick lands exactly on a slot boundary. -/
theorem C3_slot_five_and_boundary_alignment (T : Nat) :
    start_slot 12 T (T + 63) = 5 ∧
    interval_start 12 T (T + 63) = T + 60 ∧
    first_tick_fires_at (interval_start 12 T (T + 63)) (T + 63) = T + 63 ∧
    nth_tick_scheduled (interval_start 12 T (T + 63)) 12 1 = (T + 63) + 9 ∧
    ∀ n, nth_tick_scheduled (interval_start 12 T (T + 63)) 12 n = T + (5 + n) * 12 := by
  have he : start_elapsed T (T + 63) = 63 := by
    unfold start_elapsed; omega
  have hs : start_slot 12 T (T + 63) = 5 := by
    unfold start_slot; rw [he]
  have hi : interval_start 12 T (T + 63) = T + 60 := by
    unfold interval_start; rw [he, hs]; omega
  refine ⟨hs, hi, ?_, ?_, ?_⟩
  · unfold first_tick_fires_at; rw [hi]; omega
  · unfold nth_tick_scheduled; rw [hi]
  · intro n; unfold nth_tick_scheduled; rw [hi]; omega

/-! ## C4 -/

/-- C4 counterexample: in a service with configured keys `[1, 2]` of which
key 1 is already resolved (to index 10), `fetch_validator_indicies`
issues a query carrying **both** keys — the already-resolved key 1
included — refuting "the query contains only the public keys of
configured identities not yet resolved". -/
theorem C4_counterexample_query_includes_resolved_key :
    (fetch_validator_indicies partially_resolved_state (Except.ok [])).2 =
      [Event.get_state_validator_list [1, 2]] ∧
    lookupKey partially_resolved_state.public_key_to_index 1 = some 10 ∧
    (1 : PublicKey) ∈ [1, 2] := by
  refine ⟨rfl, rfl, by decide⟩

/-- C4 (amended): whenever `active_validator_count` is below the number
of configured validators, `fetch_validator_indicies` issues one query
carrying the public keys of **all** configured identities
(already-resolved ones included); when the count has reached the number
of configured validators — in particular once every configured identity
is resolved — the call issues no query and changes nothing; and an
already-resolved entry is never overwritten by a response. -/
theorem C4_registry_query_all_keys_and_noop_when_resolved
    (s : ValidatorService) (resp : Except Unit (List ValidatorData)) :
    (s.validators.length ≤ s.active_validator_count →
      fetch_validator_indicies s resp = (s, [])) ∧
    (s.active_validator_count < s.validators.length →
      (fetch_validator_indicies s resp).2 =
        [Event.get_state_validator_list
          (s.validators.map (fun keystore => keystore.public_key))]) ∧
    (∀ pk i, lookupKey s.public_key_to_index pk = some i →
      lookupKey (fetch_validator_indicies s resp).1.public_key_to_index pk = some i) := by
  refine ⟨?_, ?_, ?_⟩
  · intro hle
    unfold fetch_validator_indicies
    have : ¬ s.active_validator_count < s.validators.length := by omega
    simp [this]
  · intro hlt
    unfold fetch_validator_indicies
    cases resp <;> simp [hlt]
  · intro pk i h
    unfold fetch_validator_indicies
    by_cases hlt : s.active_validator_count < s.validators.length
    · cases resp with
      | error e => simpa [hlt] using h
      | ok validator_infos =>
          simpa [hlt] using lookup_foldl_insertValidatorData validator_infos s pk i h
    · simpa [hlt] using h

/-- C4 witness: the resolved-state branch and the never-overwritten
branch of the amended theorem, at concrete inputs. -/
theorem C4_registry_witness :
    fetch_validator_indicies fully_resolved_state (Except.ok []) =
      (fully_resolved_state, []) ∧
    lookupKey (fetch_validator_indicies partially_resolved_state
      (Except.ok [{ index := 20, public_key := 1 }])).1.public_key_to_index 1 =
      some 10 := by
  constructor
  · exact (C4_registry_query_all_keys_and_noop_when_resolved
      fully_resolved_state (Except.ok [])).1 (by decide)
  · exact (C4_registry_query_all_keys_and_noop_when_resolved
      partially_resolved_state
      (Except.ok [{ index := 20, public_key := 1 }])).2.2 1 10 (by decide)

/-! ## C5 -/

/-- C5 counterexample: `submit_sync_committee`, one of the four duty
executors, invoked with the single unresolved validator index 7, does
**not** fail with a lookup error before any network call: it succeeds
and issues two network calls (`get_block_root` and an empty-batch
`publish_sync_committee_signature`). -/
theorem C5_counterexample_sync_committee_not_fail_fast :
    (submit_sync_committee empty_registry_state 1 [7] sync_oracles_ok).1 =
      Except.ok () ∧
    (submit_sync_committee empty_registry_state 1 [7] sync_oracles_ok).2 =
      [Event.get_block_root 1, Event.publish_sync_committee_signature []] := by
  exact ⟨rfl, rfl⟩

/-- C5 (amended): each of the three single-validator duty executors
(`propose_block`, `make_attestation`, `submit_aggregate_and_proof`)
invoked with a validator index that has no resolved signer fails with
the named keystore-lookup error before any network call is issued, with
an empty event trace; `submit_sync_committee` instead silently skips
unresolved indices and proceeds with its network calls. -/
theorem C5_single_validator_executors_fail_fast
    (s : ValidatorService)
    (slot validator_index committee_index attestation_data : Nat)
    (po : ProposeOracles) (ao : AttestationOracles) (go : AggregateOracles)
    (h : lookupKey s.validator_index_to_keystore validator_index = none) :
    propose_block s slot validator_index po =
      (Except.error (VError.keystore_not_found validator_index), []) ∧
    make_attestation s slot validator_index committee_index ao =
      (Except.error (VError.keystore_not_found validator_index), []) ∧
    submit_aggregate_and_proof s attestation_data slot committee_index
        validator_index go =
      (Except.error (VError.keystore_not_found validator_index), []) := by
  unfold propose_block make_attestation submit_aggregate_and_proof
  rw [h]
  exact ⟨rfl, rfl, rfl⟩

/-- C5 witness: the amended theorem at the concrete empty-registry
service and validator index 7. -/
theorem C5_single_validator_executors_witness :
    propose_block empty_registry_state 1 7 propose_oracles_full_ok =
      (Except.error (VError.keystore_not_found 7), []) ∧
    make_attestation empty_registry_state 1 7 0 attestation_oracles_ok =
      (Except.error (VError.keystore_not_found 7), []) ∧
    submit_aggregate_and_proof empty_registry_state 8 1 0 7
        aggregate_oracles_ok =
      (Except.error (VError.keystore_not_found 7), []) := by
  exact C5_single_validator_executors_fail_fast empty_registry_state 1 7 0 8
    propose_oracles_full_ok attestation_oracles_ok aggregate_oracles_ok rfl

/-! ## C6 -/

/-- When `build_sync_payload` succeeds, the payload lists exactly the
input indices that have a resolved keystore, in input order. -/
theorem build_sync_payload_map_eq_filter (s : ValidatorService) (slot : Nat)
    (o : SyncOracles) (signing_root beacon_block_root : Nat) :
    ∀ (validator_indices : List Nat) (payload : List SyncCommitteeRequestItem),
      build_sync_payload s slot validator_indices o signing_root beacon_block_root =
        Except.ok payload →
      payload.map (fun item => item.validator_index) =
        validator_indices.filter
          (fun i => (lookupKey s.validator_index_to_keystore i).isSome) := by
  intro validator_indices
  induction validator_indices with
  | nil =>
      intro payload h
      unfold build_sync_payload at h
      cases h
      simp
  | cons i rest ih =>
      intro payload h
      unfold build_sync_payload at h
      cases hk : lookupKey s.validator_index_to_keystore i with
      | none =>
          simp only [hk] at h
          simpa [List.filter_cons, hk] using ih payload h
      | some keystore =>
          simp only [hk] at h
          cases hs : o.sign keystore.private_key signing_root with
          | error e => simp [hs] at h
          | ok signature =>
              simp only [hs] at h
              cases ht : build_sync_payload s slot rest o signing_root
                  beacon_block_root with
              | error e => simp [ht, Except.map] at h
              | ok tail =>
                  simp only [ht, Except.map] at h
                  injection h with h2
                  subst h2
                  simpa [List.filter_cons, hk] using ih tail ht

/-- If some input index has a resolved keystore whose sign fails, the
payload collection short-circuits with a named signing error. -/
theorem build_sync_payload_error_of_sign_failure (s : ValidatorService)
    (slot : Nat) (o : SyncOracles) (signing_root beacon_block_root : Nat) :
    ∀ validator_indices : List Nat,
      (∃ i ∈ validator_indices, ∃ keystore,
        lookupKey s.validator_index_to_keystore i = some keystore ∧
        o.sign keystore.private_key signing_root = Except.error ()) →
      ∃ j, build_sync_payload s slot validator_indices o signing_root
          beacon_block_root = Except.error (VError.signing_failed j) := by
  intro validator_indices
  induction validator_indices with
  | nil => rintro ⟨i, hi, -⟩; simp at hi
  | cons a rest ih =>
      rintro ⟨i, hi, keystore, hk, hsign⟩
      unfold build_sync_payload
      rcases List.mem_cons.mp hi with rfl | hmem
      · simp only [hk, hsign]
        exact ⟨i, rfl⟩
      · cases hka : lookupKey s.validator_index_to_keystore a with
        | none =>
            simp only [hka]
            exact ih ⟨i, hmem, keystore, hk, hsign⟩
        | some ks =>
            simp only [hka]
            cases hsa : o.sign ks.private_key signing_root with
            | error e => exact ⟨a, rfl⟩
            | ok sig =>
                obtain ⟨j, hj⟩ := ih ⟨i, hmem, keystore, hk, hsign⟩
                refine ⟨j, ?_⟩
                simp [hsa, hj, Except.map]

/-- C6: when the block root is fetched successfully, a successful payload
collection contains exactly one entry per input index with a resolved
signer, in input order, and is published whole in one call; and when any
present signer's sign fails, the run surfaces a named signing failure and
its trace contains no publish call. -/
theorem C6_sync_batch_order_and_all_or_nothing (s : ValidatorService)
    (slot : Nat) (validator_indices : List Nat) (o : SyncOracles) (root : Nat)
    (hroot : o.get_block_root = Except.ok root) :
    (∀ payload,
      build_sync_payload s slot validator_indices o
        (compute_signing_root root
          (compute_domain DOMAIN_SYNC_COMMITTEE electra_fork_version)) root =
        Except.ok payload →
      payload.map (fun item => item.validator_index) =
        validator_indices.filter
          (fun i => (lookupKey s.validator_index_to_keystore i).isSome) ∧
      (o.publish_sync_committee_signature = Except.ok () →
        submit_sync_committee s slot validator_indices o =
          (Except.ok (), [Event.get_block_root slot,
            Event.publish_sync_committee_signature payload]))) ∧
    ((∃ i ∈ validator_indices, ∃ keystore,
        lookupKey s.validator_index_to_keystore i = some keystore ∧
        o.sign keystore.private_key
          (compute_signing_root root
            (compute_domain DOMAIN_SYNC_COMMITTEE electra_fork_version)) =
          Except.error ()) →
      (∃ j, (submit_sync_committee s slot validator_indices o).1 =
        Except.error (VError.signing_failed j)) ∧
      ∀ p, Event.publish_sync_committee_signature p ∉
        (submit_sync_committee s slot validator_indices o).2) := by
  constructor
  · intro payload hpayload
    refine ⟨build_sync_payload_map_eq_filter s slot o _ root
      validator_indices payload hpayload, ?_⟩
    intro hpub
    unfold submit_sync_committee
    simp only [hroot, hpayload, hpub]
    rfl
  · intro hfail
    obtain ⟨j, hj⟩ := build_sync_payload_error_of_sign_failure s slot o _ root
      validator_indices hfail
    constructor
    · refine ⟨j, ?_⟩
      unfold submit_sync_committee
      simp only [hroot, hj]
    · intro p
      unfold submit_sync_committee
      simp only [hroot, hj]
      simp

/-- C6 witness: over indices `[1, 2, 3]` of a service with signers for 1
and 3 only, the built payload lists validators `[1, 3]` in order and is
published whole; and with a failing signer for validator 3 the run
surfaces a signing failure and issues no publish call. -/
theorem C6_sync_batch_witness :
    sync_payload_13.map (fun item => item.validator_index) = [1, 3] ∧
    submit_sync_committee two_signer_state 2 [1, 2, 3] sync_oracles_ok =
      (Except.ok (), [Event.get_block_root 2,
        Event.publish_sync_committee_signature sync_payload_13]) ∧
    (∃ j, (submit_sync_committee two_signer_state 2 [1, 2, 3]
        sync_oracles_sign_fail).1 = Except.error (VError.signing_failed j)) ∧
    ∀ p, Event.publish_sync_committee_signature p ∉
      (submit_sync_committee two_signer_state 2 [1, 2, 3]
        sync_oracles_sign_fail).2 := by
  have hok := (C6_sync_batch_order_and_all_or_nothing two_signer_state 2
    [1, 2, 3] sync_oracles_ok 5 rfl).1 sync_payload_13 rfl
  have hfail := (C6_sync_batch_order_and_all_or_nothing two_signer_state 2
    [1, 2, 3] sync_oracles_sign_fail 5 rfl).2
    ⟨3, by decide, ⟨3, 103⟩, rfl, rfl⟩
  refine ⟨?_, hok.2 rfl, hfail.1, hfail.2⟩
  rw [hok.1]
  rfl

/-! ## C7 -/

/-- C7: for a resolved validator, a successful `propose_block` run
publishes exactly once through the endpoint matching the response shape
(`Full` → `publish_block`, `Blinded` → `publish_blinded_block`), at
`Gossip` broadcast-validation level — never both, never neither; a
failure of the RANDAO signing, the block request, or the body signing
aborts with no publish call issued; and no run, successful or not, ever
issues more than one publish call. -/
theorem C7_propose_block_publish_dispatch (s : ValidatorService)
    (slot validator_index : Nat) (o : ProposeOracles) (keystore : Keystore)
    (h : lookupKey s.validator_index_to_keystore validator_index = some keystore) :
    ((propose_block s slot validator_index o).1 = Except.ok () →
      ((∃ block signed, o.produce_block = Except.ok (ProduceBlockData.Full block) ∧
        publish_events (propose_block s slot validator_index o).2 =
          [Event.publish_block BroadcastValidation.Gossip signed]) ∨
      (∃ block signed, o.produce_block = Except.ok (ProduceBlockData.Blinded block) ∧
        publish_events (propose_block s slot validator_index o).2 =
          [Event.publish_blinded_block BroadcastValidation.Gossip signed]))) ∧
    ((o.sign_randao_reveal slot keystore.private_key = Except.error () ∨
        o.produce_block = Except.error ()) →
      (∃ e, (propose_block s slot validator_index o).1 = Except.error e) ∧
      publish_events (propose_block s slot validator_index o).2 = []) ∧
    (∀ reveal block,
      o.sign_randao_reveal slot keystore.private_key = Except.ok reveal →
      o.produce_block = Except.ok (ProduceBlockData.Full block) →
      o.sign_beacon_block slot block keystore.private_key = Except.error () →
      (∃ e, (propose_block s slot validator_index o).1 = Except.error e) ∧
      publish_events (propose_block s slot validator_index o).2 = []) ∧
    (∀ reveal block,
      o.sign_randao_reveal slot keystore.private_key = Except.ok reveal →
      o.produce_block = Except.ok (ProduceBlockData.Blinded block) →
      o.sign_blinded_beacon_block slot block keystore.private_key = Except.error () →
      (∃ e, (propose_block s slot validator_index o).1 = Except.error e) ∧
      publish_events (propose_block s slot validator_index o).2 = []) ∧
    ((publish_events (propose_block s slot validator_index o).2).length ≤ 1) := by
  unfold propose_block
  simp only [h]
  cases hr : o.sign_randao_reveal slot keystore.private_key with
  | error e =>
      cases e
      refine ⟨?_, ?_, ?_, ?_, ?_⟩ <;>
        simp [publish_events, is_publish_event, hr]
  | ok reveal =>
      cases hp : o.produce_block with
      | error e =>
          cases e
          refine ⟨?_, ?_, ?_, ?_, ?_⟩ <;>
            simp [publish_events, is_publish_event, hr, hp]
      | ok data =>
          cases data with
          | Full block =>
              cases hb : o.sign_beacon_block slot block keystore.private_key with
              | error e =>
                  cases e
                  refine ⟨?_, ?_, ?_, ?_, ?_⟩ <;>
                    simp [publish_events, is_publish_event, hr, hp, hb]
              | ok signed =>
                  cases hpub : o.publish_block with
                  | ok u =>
                      refine ⟨?_, ?_, ?_, ?_, ?_⟩ <;>
                        simp [publish_events, is_publish_event, hr, hp, hb, hpub]
                  | error e =>
                      cases e
                      refine ⟨?_, ?_, ?_, ?_, ?_⟩ <;>
                        simp [publish_events, is_publish_event, hr, hp, hb, hpub]
          | Blinded block =>
              cases hb : o.sign_blinded_beacon_block slot block keystore.private_key with
              | error e =>
                  cases e
                  refine ⟨?_, ?_, ?_, ?_, ?_⟩ <;>
                    simp [publish_events, is_publish_event, hr, hp, hb]
              | ok signed =>
                  cases hpub : o.publish_blinded_block with
                  | ok u =>
                      refine ⟨?_, ?_, ?_, ?_, ?_⟩ <;>
                        simp [publish_events, is_publish_event, hr, hp, hb, hpub]
                  | error e =>
                      cases e
                      refine ⟨?_, ?_, ?_, ?_, ?_⟩ <;>
                        simp [publish_events, is_publish_event, hr, hp, hb, hpub]

/-- C7 witness: the success branch of the dispatch theorem at a concrete
all-succeeding `Full` run: the publish sub-trace is exactly one
`publish_block` call at `Gossip`. -/
theorem C7_propose_block_witness :
    (∃ block signed, propose_oracles_full_ok.produce_block =
        Except.ok (ProduceBlockData.Full block) ∧
      publish_events (propose_block two_signer_state 2 1
          propose_oracles_full_ok).2 =
        [Event.publish_block BroadcastValidation.Gossip signed]) ∨
    (∃ block signed, propose_oracles_full_ok.produce_block =
        Except.ok (ProduceBlockData.Blinded block) ∧
      publish_events (propose_block two_signer_state 2 1
          propose_oracles_full_ok).2 =
        [Event.publish_blinded_block BroadcastValidation.Gossip signed]) := by
  exact (C7_propose_block_publish_dispatch two_signer_state 2 1
    propose_oracles_full_ok ⟨1, 101⟩ rfl).1 rfl

/-! ## C8 -/

/-- C8: with at least one resolved validator, each of the three duty
fetches fails independently: the failing kind's cache keeps its previous
value and its error is logged with the responsible epoch, the caches of a
kind whose fetch succeeds are replaced from its response, and all three
queries are always issued.  (`fetch_duties` returns no error channel at
all, so no failure can be surfaced to a caller.) -/
theorem C8_duty_fetch_failures_independent (s : ValidatorService) (epoch : Nat)
    (respP : Except Unit (List ProposerDuty))
    (respA : Except Unit (List AttesterDuty))
    (respS : Except Unit (List SyncCommitteeDuty))
    (hne : s.public_key_to_index ≠ []) :
    (respP = Except.error () →
      (fetch_duties s epoch respP respA respS).1.proposer_duties =
        s.proposer_duties ∧
      Event.log_error_proposer_duties epoch ∈
        (fetch_duties s epoch respP respA respS).2) ∧
    (respA = Except.error () →
      (fetch_duties s epoch respP respA respS).1.attester_duties =
        s.attester_duties ∧
      Event.log_error_attester_duties (epoch + 1) ∈
        (fetch_duties s epoch respP respA respS).2) ∧
    (respS = Except.error () →
      (fetch_duties s epoch respP respA respS).1.sync_committee_duties =
        s.sync_committee_duties ∧
      Event.log_error_sync_committee_duties epoch ∈
        (fetch_duties s epoch respP respA respS).2) ∧
    (∀ l, respP = Except.ok l →
      (fetch_duties s epoch respP respA respS).1.proposer_duties =
        l.filter (fun duty =>
          (s.public_key_to_index.map (fun entry => entry.2)).contains
            duty.validator_index)) ∧
    (∀ l, respA = Except.ok l →
      (fetch_duties s epoch respP respA respS).1.attester_duties = l) ∧
    (∀ l, respS = Except.ok l →
      (fetch_duties s epoch respP respA respS).1.sync_committee_duties = l) ∧
    Event.get_proposer_duties epoch ∈
      (fetch_duties s epoch respP respA respS).2 ∧
    Event.get_attester_duties (epoch + 1)
      (s.public_key_to_index.map (fun entry => entry.2)) ∈
      (fetch_duties s epoch respP respA respS).2 ∧
    Event.get_sync_committee_duties epoch
      (s.public_key_to_index.map (fun entry => entry.2)) ∈
      (fetch_duties s epoch respP respA respS).2 := by
  have hne2 : (s.public_key_to_index.map (fun entry => entry.2)).isEmpty = false := by
    cases hh : s.public_key_to_index with
    | nil => exact absurd hh hne
    | cons a t => simp
  cases respP <;> cases respA <;> cases respS <;>
    simp_all [fetch_duties, fetch_proposer_duties, fetch_attester_duties,
      fetch_sync_committee_duties]

/-- C8 witness: with signers resolved and a failing proposer fetch, the
proposer cache keeps its previous value and the failure is logged for
epoch 3, while a succeeding attester fetch replaces the attester cache. -/
theorem C8_duty_fetch_witness :
    (fetch_duties two_signer_state 3 (Except.error ()) (Except.ok [11])
        (Except.ok [12])).1.proposer_duties =
      two_signer_state.proposer_duties ∧
    Event.log_error_proposer_duties 3 ∈
      (fetch_duties two_signer_state 3 (Except.error ()) (Except.ok [11])
        (Except.ok [12])).2 ∧
    (fetch_duties two_signer_state 3 (Except.error ()) (Except.ok [11])
        (Except.ok [12])).1.attester_duties = [11] := by
  have h := C8_duty_fetch_failures_independent two_signer_state 3
    (Except.error ()) (Except.ok [11]) (Except.ok [12]) (by decide)
  exact ⟨(h.1 rfl).1, (h.1 rfl).2, h.2.2.2.2.1 [11] rfl⟩

/-! ## C9 -/

/-- C9: with at least one resolved validator, the attester-duty query of
`fetch_duties epoch` is issued for `epoch + 1` while the proposer-duty
and sync-committee-duty queries are issued for `epoch` unchanged — and no
query of any of the three kinds is ever issued for any other epoch. -/
theorem C9_attester_duties_epoch_lookahead (s : ValidatorService) (epoch : Nat)
    (respP : Except Unit (List ProposerDuty))
    (respA : Except Unit (List AttesterDuty))
    (respS : Except Unit (List SyncCommitteeDuty))
    (hne : s.public_key_to_index ≠ []) :
    Event.get_proposer_duties epoch ∈
      (fetch_duties s epoch respP respA respS).2 ∧
    Event.get_attester_duties (epoch + 1)
      (s.public_key_to_index.map (fun entry => entry.2)) ∈
      (fetch_duties s epoch respP respA respS).2 ∧
    Event.get_sync_committee_duties epoch
      (s.public_key_to_index.map (fun entry => entry.2)) ∈
      (fetch_duties s epoch respP respA respS).2 ∧
    (∀ e, Event.get_proposer_duties e ∈
      (fetch_duties s epoch respP respA respS).2 → e = epoch) ∧
    (∀ e idx, Event.get_attester_duties e idx ∈
      (fetch_duties s epoch respP respA respS).2 → e = epoch + 1) ∧
    (∀ e idx, Event.get_sync_committee_duties e idx ∈
      (fetch_duties s epoch respP respA respS).2 → e = epoch) := by
  have hne2 : (s.public_key_to_index.map (fun entry => entry.2)).isEmpty = false := by
    cases hh : s.public_key_to_index with
    | nil => exact absurd hh hne
    | cons a t => simp
  cases respP <;> cases respA <;> cases respS <;>
    simp_all [fetch_duties, fetch_proposer_duties, fetch_attester_duties,
      fetch_sync_committee_duties]

/-- C9 witness: the lookahead theorem at a concrete state and epoch 3:
the attester query is issued for epoch 4, proposer and sync-committee
queries for epoch 3. -/
theorem C9_attester_duties_witness :
    Event.get_proposer_duties 3 ∈
      (fetch_duties two_signer_state 3 (Except.ok []) (Except.ok [])
        (Except.ok [])).2 ∧
    Event.get_attester_duties 4 [1, 3] ∈
      (fetch_duties two_signer_state 3 (Except.ok []) (Except.ok [])
        (Except.ok [])).2 ∧
    Event.get_sync_committee_duties 3 [1, 3] ∈
      (fetch_duties two_signer_state 3 (Except.ok []) (Except.ok [])
        (Except.ok [])).2 := by
  have h := C9_attester_duties_epoch_lookahead two_signer_state 3
    (Except.ok []) (Except.ok []) (Except.ok []) (by decide)
  exact ⟨h.1, h.2.1, h.2.2.1⟩

/-! ## C10 -/

/-- Over indices none of which has a resolved keystore, the payload
collection succeeds with the empty list. -/
theorem build_sync_payload_nil_of_unresolved (s : ValidatorService)
    (slot : Nat) (o : SyncOracles) (signing_root beacon_block_root : Nat) :
    ∀ validator_indices : List Nat,
      (∀ i ∈ validator_indices,
        lookupKey s.validator_index_to_keystore i = none) →
      build_sync_payload s slot validator_indices o signing_root
        beacon_block_root = Except.ok [] := by
  intro validator_indices
  induction validator_indices with
  | nil => intro _; rfl
  | cons a rest ih =>
      intro hall
      unfold build_sync_payload
      simp only [hall a (by simp)]
      exact ih (fun i hi => hall i (by simp [hi]))

/-- C10: `submit_sync_committee` over indices none of which has a
resolved signer does not fail fast: it issues the `get_block_root` call
and then publishes an **empty** batch, returning success when those two
network calls succeed. -/
theorem C10_sync_committee_empty_batch (s : ValidatorService) (slot : Nat)
    (validator_indices : List Nat) (o : SyncOracles) (root : Nat)
    (hnone : ∀ i ∈ validator_indices,
      lookupKey s.validator_index_to_keystore i = none)
    (hroot : o.get_block_root = Except.ok root)
    (hpub : o.publish_sync_committee_signature = Except.ok ()) :
    submit_sync_committee s slot validator_indices o =
      (Except.ok (), [Event.get_block_root slot,
        Event.publish_sync_committee_signature []]) := by
  have hb := build_sync_payload_nil_of_unresolved s slot o
    (compute_signing_root root
      (compute_domain DOMAIN_SYNC_COMMITTEE electra_fork_version)) root
    validator_indices hnone
  unfold submit_sync_committee
  simp only [hroot, hb, hpub]
  rfl

/-- C10 witness: the empty-batch theorem at the concrete empty-registry
service over index list `[7]`. -/
theorem C10_sync_committee_empty_batch_witness :
    submit_sync_committee empty_registry_state 1 [7] sync_oracles_ok =
      (Except.ok (), [Event.get_block_root 1,
        Event.publish_sync_committee_signature []]) := by
  exact C10_sync_committee_empty_batch empty_registry_state 1 [7]
    sync_oracles_ok 5 (by decide) rfl rfl

end Ream
